import Mathlib

/-!
Verification development for the cyberjob-alert-bot repository.

The repository is a set of Python scripts that scrape job postings,
classify each posting through an ordered filter chain, deduplicate
against a persisted seen-set, and post the survivors to a Slack webhook.

This file gives a shallow embedding of the relevant functions:
all string matching done by the Python regexes that are mere
alternations of literal substrings is modelled by literal substring
search (patSearch); the one genuinely structural regex
(EXPERIENCE_REJECT in test_job_alert.py) is modelled by a small
executable regex interpreter over an abstract syntax tree transcribed
from the source pattern.  Stateful code (the in-memory seen set, the
dispatch loop with its sleeps) is modelled by explicit state passing
and by event traces.
-/

set_option maxRecDepth 8000

/-- Lower-case one ASCII character, as Python str.lower does on ASCII text. -/
def lowerChar (c : Char) : Char :=
  if 'A' ≤ c && c ≤ 'Z' then Char.ofNat (c.toNat + 32) else c

/-- Lower-case a string character-wise (Python str.lower on ASCII text). -/
def lowerStr (s : String) : String := String.mk (s.data.map lowerChar)

/-- Substring containment: pat occurs somewhere inside hay.
Models the Python expression pat in hay, and re.search for a pattern
that is a single literal. -/
def strContainsSub (hay pat : String) : Bool :=
  hay.data.tails.any (fun t => pat.data.isPrefixOf t)

/-- Search of an alternation of literal substrings: models
re.compile(lit1|lit2|...).search(text) for patterns whose alternatives
are all literal strings (every title/source/easy-apply pattern of the
repository is of this form; the literals are written lower-case and the
Python patterns carry re.I, so the caller passes lower-cased text). -/
def patSearch (pats : List String) (text : String) : Bool :=
  pats.any (fun p => strContainsSub text p)

/-- State of one field of a scraped posting dictionary: the key can be
missing, present with value None (a pandas NaN comes through this way),
or present with a string value.  Distinguishing missing from None
matters because Python dict.get(key, default) returns the default only
when the key is missing. -/
inductive PyField where
  | missing : PyField
  | null : PyField
  | str (s : String) : PyField
deriving DecidableEq

/-- Generic first-matching-stage classifier: the name of the first
stage whose predicate holds, or "passed" when none does.  Used to state
that the filter chains are ordered, short-circuiting predicate lists. -/
def firstMatching {α : Type} (stages : List (String × (α → Bool))) (x : α) : String :=
  match stages.find? (fun st => st.2 x) with
  | some st => st.1
  | none => "passed"

namespace JobAlert

/-- TITLE_KEYWORDS of src/job_alert.py line 32, an alternation of literals. -/
def TITLE_KEYWORDS : List String :=
  ["cyber", "security", "soc", "grc", "infosec", "threat", "incident response",
   "vulnerability", "detection", "cloud security", "security analyst",
   "security engineer", "malware", "siem", "log analysis", "risk", "appsec",
   "devsecops"]

/-- REJECT_TITLE of src/job_alert.py line 33. -/
def REJECT_TITLE : List String :=
  ["senior", "manager", "lead", "director", "principal", "architect", "vp",
   "vice president", "chief", "head of", "operations manager"]

/-- SOURCE_REJECT of src/job_alert.py line 34. -/
def SOURCE_REJECT : List String :=
  ["dice", "lensa", "jobs via dice", "jobs via lensa", "via dice", "via lensa"]

/-- EASY_APPLY of src/job_alert.py line 35. -/
def EASY_APPLY : List String :=
  ["easy apply", "quick apply", "1-click apply", "1 click apply", "apply now",
   "apply with your profile", "apply with linkedin"]

/-- MAX_JOBS_TO_KEEP of src/job_alert.py line 14. -/
def MAX_JOBS_TO_KEEP : Nat := 1000

/-- A scraped posting as consumed by job_alert.filter_job.  The url,
title, via, apply_text and company fields are taken as plain strings
(filter_job coerces them with str(...) and none of the claims exercises
their optionality); the description field keeps its three-state nature
because filter_job line 79 treats it specially. -/
structure Job where
  job_url : String
  title : String
  description : PyField
  via : String
  apply_text : String
  company : String
deriving DecidableEq

/-- Line 78: str(job.get("title", "")).lower(). -/
def titleOf (j : Job) : String := lowerStr j.title

/-- Line 79: str(job.get("description", "")).lower() if job.get("description") else "".
A missing key, a None value and an empty string are all falsy, giving "". -/
def descOf (j : Job) : String :=
  match j.description with
  | PyField.missing => ""
  | PyField.null => ""
  | PyField.str s => if s == "" then "" else lowerStr s

/-- Line 80: str(job.get("via", "")).lower(). -/
def sourceOf (j : Job) : String := lowerStr j.via

/-- Line 81: str(job.get("apply_text", "")).lower(). -/
def applyTextOf (j : Job) : String := lowerStr j.apply_text

/-- Line 82: str(job.get("company", "")).lower(). -/
def companyOf (j : Job) : String := lowerStr j.company

/-- Line 96: full_text = f"{title} {description} {apply_text}". -/
def fullTextOf (j : Job) : String :=
  titleOf j ++ " " ++ descOf j ++ " " ++ applyTextOf j

/-- Stage predicate of line 75: url in SEEN_JOBS. -/
def seenHit (seen : List String) (j : Job) : Bool := seen.contains j.job_url

/-- Stage predicate of line 85: SOURCE_REJECT matches via, description or company. -/
def sourceHit (j : Job) : Bool :=
  patSearch SOURCE_REJECT (sourceOf j) || patSearch SOURCE_REJECT (descOf j) ||
    patSearch SOURCE_REJECT (companyOf j)

/-- Stage predicate of line 89: not check_title_match(title), where
check_title_match is an lru_cache wrapper around TITLE_KEYWORDS.search. -/
def titleKeywordMiss (j : Job) : Bool := !(patSearch TITLE_KEYWORDS (titleOf j))

/-- Stage predicate of line 92: REJECT_TITLE.search(title). -/
def titleRejectHit (j : Job) : Bool := patSearch REJECT_TITLE (titleOf j)

/-- Stage predicate of line 97: EASY_APPLY.search(full_text). -/
def easyApplyHit (j : Job) : Bool := patSearch EASY_APPLY (fullTextOf j)

/-- filter_job of src/job_alert.py lines 70-101.  The Python function
returns (job, "passed") on acceptance and (None, reason) on rejection;
the first component is modelled by the Bool accepted-flag. -/
def filter_job (j : Job) (seen : List String) : Bool × String :=
  if seenHit seen j then (false, "seen")
  else if sourceHit j then (false, "source")
  else if titleKeywordMiss j then (false, "title_keywords")
  else if titleRejectHit j then (false, "title_reject")
  else if easyApplyHit j then (false, "easy_apply")
  else (true, "passed")

/-- The filter chain of job_alert.filter_job as an ordered stage list. -/
def stages (seen : List String) : List (String × (Job → Bool)) :=
  [("seen", seenHit seen), ("source", sourceHit),
   ("title_keywords", titleKeywordMiss), ("title_reject", titleRejectHit),
   ("easy_apply", easyApplyHit)]

/-- The pure (seen-independent) part of the filter: stages 2-5 all pass. -/
def stage_pure (j : Job) : Bool :=
  !sourceHit j && !titleKeywordMiss j && !titleRejectHit j && !easyApplyHit j

/-- process_jobs_batch of src/job_alert.py lines 103-121, sequentialized:
each job is classified against the current seen set; an accepted job is
appended to the result and its url added to the seen set (lines 116-119;
the double add of lines 118-119 is idempotent on a set). -/
def processJobsBatch : List Job → List String → List Job × List String
  | [], seen => ([], seen)
  | j :: rest, seen =>
    let fr := filter_job j seen
    if fr.1 then
      let next := processJobsBatch rest (j.job_url :: seen)
      (j :: next.1, next.2)
    else
      processJobsBatch rest seen

/-- save_seen_jobs of src/job_alert.py lines 58-64: the persisted list is
list(SEEN_JOBS)[-MAX_JOBS_TO_KEEP:].  The argument is the seen set in
the iteration order Python produces for it; the Python slice keeps the
last MAX_JOBS_TO_KEEP elements of that list. -/
def save_seen_jobs_list (seen : List String) : List String :=
  seen.drop (seen.length - MAX_JOBS_TO_KEEP)

/-- The persisted-file effect of save_seen_jobs: the file is opened with
mode "w" and overwritten, so the previous contents are discarded. -/
def write_file (_prev : Option (List String)) (seen : List String) : Option (List String) :=
  some (save_seen_jobs_list seen)

end JobAlert

namespace Elite

/-- REJECT_TITLE_PATTERN of src/elite_companies.py line 51. -/
def REJECT_TITLE_PATTERN : List String :=
  ["senior", "sr", "manager", "lead", "director", "principal", "architect",
   "vp", "chief", "head", "experienced", "staff", "distinguished"]

/-- REQUIRED_TITLE_PATTERN of src/elite_companies.py line 52. -/
def REQUIRED_TITLE_PATTERN : List String :=
  ["security", "soc", "cyber", "infosec", "incident", "threat", "siem",
   "malware", "detection", "grc", "cloud security", "identity", "risk",
   "forensics", "devsecops", "appsec", "vulnerability"]

/-- REJECT_DESCRIPTION_PATTERN of src/elite_companies.py line 53. -/
def REJECT_DESCRIPTION_PATTERN : List String :=
  ["us citizen", "u.s. citizen", "must be a us citizen", "only us citizens",
   "citizenship required", "security clearance", "ts/sci", "ts / sci",
   "polygraph", "top secret", "clearance required", "iat level ii",
   "public trust"]

/-- CACHE_EXPIRY_HOURS of src/elite_companies.py line 18 (the TTL). -/
def CACHE_EXPIRY_HOURS : Nat := 24

/-- A scraped posting row as consumed by elite_companies.filter_job.
The description and via fields keep their three-state nature: line 78
guards via with (job.get("via") or "") while line 79 calls .lower()
directly on job.get("description", ""), so a present-but-None
description is observably different from a missing one.  The title,
company and url fields are taken as plain strings (no claim exercises
their optionality). -/
structure EJob where
  job_url : String
  title : String
  company : String
  via : PyField
  description : PyField
deriving DecidableEq

/-- Line 78: (job.get("via") or "").lower().  The or-guard turns both a
missing key and a None value into the empty string. -/
def viaLower : PyField → String
  | PyField.missing => ""
  | PyField.null => ""
  | PyField.str s => lowerStr s

/-- Line 79: job.get("description", "").lower().  A missing key takes
the default "" and lower-cases fine; a present None value has no .lower
method, so the call raises AttributeError, modelled by none. -/
def descLower : PyField → Option String
  | PyField.missing => some ""
  | PyField.null => none
  | PyField.str s => some (lowerStr s)

/-- The description as text, for stating stage predicates under the
assumption that line 79 did not raise. -/
def descOrEmpty : PyField → String
  | PyField.missing => ""
  | PyField.null => ""
  | PyField.str s => lowerStr s

/-- Stage predicate of line 82: is_job_seen(job_url, cache), i.e.
job_url in cache["jobs"]. -/
def cachedHit (cacheUrls : List String) (j : EJob) : Bool := cacheUrls.contains j.job_url

/-- Stage predicate of line 85: company.lower() not in job_company. -/
def companyMismatchHit (company : String) (j : EJob) : Bool :=
  !(strContainsSub (lowerStr j.company) (lowerStr company))

/-- Stage predicate of line 88: "dice" in job_via or "lensa" in job_via. -/
def badSourceHit (j : EJob) : Bool :=
  strContainsSub (viaLower j.via) "dice" || strContainsSub (viaLower j.via) "lensa"

/-- Stage predicate of line 91: REJECT_TITLE_PATTERN.search(title). -/
def titleRejectHitE (j : EJob) : Bool :=
  patSearch REJECT_TITLE_PATTERN (lowerStr j.title)

/-- Stage predicate of line 94: not REQUIRED_TITLE_PATTERN.search(title). -/
def titleMissingHitE (j : EJob) : Bool :=
  !(patSearch REQUIRED_TITLE_PATTERN (lowerStr j.title))

/-- Stage predicate of line 97: REJECT_DESCRIPTION_PATTERN.search(description). -/
def descriptionRejectHitE (j : EJob) : Bool :=
  patSearch REJECT_DESCRIPTION_PATTERN (descOrEmpty j.description)

/-- filter_job of src/elite_companies.py lines 74-100.  All field
accesses of lines 76-80 happen before any check, so a None description
raises (result none) even for a cached job.  On normal completion the
result is the (passed, reason) pair of the source. -/
def filter_job (j : EJob) (company : String) (cacheUrls : List String) :
    Option (Bool × String) :=
  match descLower j.description with
  | none => none
  | some _ =>
    if cachedHit cacheUrls j then some (false, "cached")
    else if companyMismatchHit company j then some (false, "company_mismatch")
    else if badSourceHit j then some (false, "bad_source")
    else if titleRejectHitE j then some (false, "title_reject")
    else if titleMissingHitE j then some (false, "title_missing_keywords")
    else if descriptionRejectHitE j then some (false, "description_reject")
    else some (true, "passed")

/-- The filter chain of elite_companies.filter_job as an ordered stage
list.  Note the title deny-list stage precedes the allow-list stage. -/
def stagesE (company : String) (cacheUrls : List String) : List (String × (EJob → Bool)) :=
  [("cached", cachedHit cacheUrls), ("company_mismatch", companyMismatchHit company),
   ("bad_source", badSourceHit), ("title_reject", titleRejectHitE),
   ("title_missing_keywords", titleMissingHitE),
   ("description_reject", descriptionRejectHitE)]

/-- The cache-expiry sweep of src/elite_companies.py lines 182-184:
cache["jobs"] keeps exactly the entries whose first_seen timestamp is
strictly newer than now - CACHE_EXPIRY_HOURS.  Timestamps are modelled
as integers (seconds); ttl is the TTL in the same unit. -/
def cache_expire (jobs : List (String × Int)) (now ttl : Int) : List (String × Int) :=
  jobs.filter (fun e => now - ttl < e.2)

/-- save_cache of src/elite_companies.py lines 65-68: json.dump(cache)
writes the whole jobs mapping unchanged; no entry is dropped and no
size cap is applied by save. -/
def save_cache_persisted (jobs : List (String × Int)) : List (String × Int) := jobs

end Elite

/-- An observable event of a notification-dispatcher run: a sink call
(HTTP POST of a text payload) or a time.sleep of the given number of
seconds. -/
inductive Ev where
  | sleep (secs : Nat) : Ev
  | post (text : String) : Ev
deriving DecidableEq

/-- Whether an event is a sink call. -/
def Ev.isPost : Ev → Bool
  | Ev.post _ => true
  | Ev.sleep _ => false

namespace Elite

/-- Line 162: combined_message = "\n".join(batch). -/
def joinNL (batch : List String) : String := String.intercalate "\n" batch

/-- The retry loop of src/elite_companies.py lines 164-172 for one
batch.  oracle c tells whether the c-th sink call of the whole dispatch
succeeds; attempt is the loop variable, remaining the attempts left out
of max_retries.  On failure the loop sleeps 1 * (attempt + 1) seconds
(even after the final attempt: the sleep of line 172 is outside the
if of line 170) and retries; on success it breaks.  Returns the events
and the next global call counter. -/
def send_with_retries (oracle : Nat → Bool) (text : String) :
    Nat → Nat → Nat → List Ev × Nat
  | _, 0, c => ([], c)
  | attempt, remaining + 1, c =>
    if oracle c then ([Ev.post text], c + 1)
    else
      let rest := send_with_retries oracle text (attempt + 1) remaining (c + 1)
      (Ev.post text :: Ev.sleep (1 * (attempt + 1)) :: rest.1, rest.2)

/-- The batching loop of src/elite_companies.py lines 159-174:
for i in range(0, len(messages), batch_size) with batch_size = 20,
send messages[i:i+20] joined by newlines with up to 3 attempts, then
sleep 1 second (line 174, rate limiting between batches).  fuel is an
upper bound on the number of batches; messages.length suffices. -/
def dispatchF (oracle : Nat → Bool) : Nat → List String → Nat → List Ev × Nat
  | 0, _, c => ([], c)
  | _, [], c => ([], c)
  | fuel + 1, msgs, c =>
    let s := send_with_retries oracle (joinNL (msgs.take 20)) 0 3 c
    let rest := dispatchF oracle fuel (msgs.drop 20) s.2
    (s.1 ++ Ev.sleep 1 :: rest.1, rest.2)

/-- post_to_slack of src/elite_companies.py lines 154-174 as an event
trace.  The guard of lines 156-157 (empty message list returns at once)
is the fuel-0 and empty-list base case of dispatchF. -/
def post_to_slack (oracle : Nat → Bool) (messages : List String) : List Ev :=
  (dispatchF oracle messages.length messages 0).1

/-- The batch slices messages[i:i+20] of the loop, in order. -/
def chunksF : Nat → List String → List (List String)
  | 0, _ => []
  | _, [] => []
  | fuel + 1, msgs => msgs.take 20 :: chunksF fuel (msgs.drop 20)

/-- The batches of one dispatch of messages. -/
def chunks20 (messages : List String) : List (List String) :=
  chunksF messages.length messages

end Elite

namespace JobAlert

/-- The retry loop of src/job_alert.py lines 125-134: attempt posts the
message; on success return True; on the last failed attempt log and
return False (before any sleep); otherwise sleep 1 * (attempt + 1)
seconds and retry.  oracle i tells whether attempt i succeeds;
remaining counts the attempts left.  A run out of attempts without a
return (only possible for max_retries = 0) falls off the loop and
returns None, falsy, modelled as false. -/
def post_attempts (oracle : Nat → Bool) (msg : String) :
    Nat → Nat → Bool × List Ev
  | _, 0 => (false, [])
  | attempt, remaining + 1 =>
    if oracle attempt then (true, [Ev.post msg])
    else if remaining == 0 then (false, [Ev.post msg])
    else
      let rest := post_attempts oracle msg (attempt + 1) remaining
      (rest.1, Ev.post msg :: Ev.sleep (1 * (attempt + 1)) :: rest.2)

/-- post_to_slack of src/job_alert.py lines 123-134 (default
max_retries = 3): result flag and event trace. -/
def post_to_slack (oracle : Nat → Bool) (msg : String) (maxRetries : Nat) :
    Bool × List Ev :=
  post_attempts oracle msg 0 maxRetries

end JobAlert

/-- Abstract syntax of the fragment of Python regexes used by
test_job_alert.py: literals, single-character classes, sequencing,
alternation, optional groups, Kleene star restricted to character
classes (the sources only star the class of whitespace and the
any-but-newline dot), and negative lookahead. -/
inductive RE where
  | lit (cs : String) : RE
  | cls (cs : String) : RE
  | seq (a b : RE) : RE
  | alt (a b : RE) : RE
  | opt (a : RE) : RE
  | starCls (cs : String) : RE
  | starNot (cs : String) : RE
  | nla (a : RE) : RE

/-- Remainders reachable by consuming zero or more characters of the
class cs from the front of s (greedy order is irrelevant: only the
existence of a match is observed). -/
def starClsTails (cs : List Char) : List Char → List (List Char)
  | [] => [[]]
  | c :: rest =>
    (c :: rest) :: (if cs.contains c then starClsTails cs rest else [])

/-- Remainders reachable by consuming zero or more characters NOT in cs
from the front of s (models .* with cs = the newline). -/
def starNotTails (cs : List Char) : List Char → List (List Char)
  | [] => [[]]
  | c :: rest =>
    (c :: rest) :: (if cs.contains c then [] else starNotTails cs rest)

/-- All remainders of s after a match of r at its front.  A Python
match of r at the start of s exists iff this list is nonempty, and
backtracking corresponds to the choice among remainders; negative
lookahead consumes nothing and succeeds iff no match of its body
exists at the current position. -/
def reMatches : RE → List Char → List (List Char)
  | RE.lit cs, s =>
    if cs.data.isPrefixOf s then [s.drop cs.data.length] else []
  | RE.cls cs, s =>
    match s with
    | [] => []
    | c :: rest => if cs.data.contains c then [rest] else []
  | RE.seq a b, s => (reMatches a s).flatMap (fun t => reMatches b t)
  | RE.alt a b, s => reMatches a s ++ reMatches b s
  | RE.opt a, s => s :: reMatches a s
  | RE.starCls cs, s => starClsTails cs.data s
  | RE.starNot cs, s => starNotTails cs.data s
  | RE.nla a, s => if (reMatches a s).isEmpty then [s] else []

/-- re.search semantics: some match of r starts at some position of the
text.  The patterns are transcribed lower-case and carry re.I in the
source, so the text is lower-cased first. -/
def reSearch (r : RE) (s : String) : Bool :=
  (lowerStr s).data.tails.any (fun t => !(reMatches r t).isEmpty)

/-- Alternation of a list of regexes (the list is never empty at use
sites; the fallback for [] is a never-matching literal). -/
def rAlts : List RE → RE
  | [] => RE.lit "\x00never\x00"
  | r :: rs => rs.foldl RE.alt r

/-- Sequencing of a list of regexes. -/
def rSeqs : List RE → RE
  | [] => RE.lit ""
  | r :: rs => rs.foldl RE.seq r

/-- The whitespace class of Python \s (ASCII part). -/
def wsChars : String := " \t\n\r\x0b\x0c"

/-- One-or-more whitespace, the pattern fragment \s+. -/
def wsP : RE := RE.seq (RE.cls wsChars) (RE.starCls wsChars)

/-- Zero-or-more whitespace, the pattern fragment \s*. -/
def wsS : RE := RE.starCls wsChars

namespace Stage2

/-- CLEARANCE_KEYWORDS of src/test_job_alert.py line 105, an
alternation of literals. -/
def CLEARANCE_KEYWORDS : List String :=
  ["security clearance", "secret clearance", "top secret", "ts/sci",
   "clearance required", "government clearance", "dod clearance",
   "federal clearance", "clearability", "able to obtain clearance"]

/-- The number alternatives 3+?|4+?|...|10+?|1[1-9]|[2-9]\d (a digit
3-10 with optional trailing plus, or a two-digit number 11-99). -/
def numPlus : RE :=
  rAlts [RE.seq (RE.lit "3") (RE.opt (RE.lit "+")),
         RE.seq (RE.lit "4") (RE.opt (RE.lit "+")),
         RE.seq (RE.lit "5") (RE.opt (RE.lit "+")),
         RE.seq (RE.lit "6") (RE.opt (RE.lit "+")),
         RE.seq (RE.lit "7") (RE.opt (RE.lit "+")),
         RE.seq (RE.lit "8") (RE.opt (RE.lit "+")),
         RE.seq (RE.lit "9") (RE.opt (RE.lit "+")),
         RE.seq (RE.lit "10") (RE.opt (RE.lit "+")),
         RE.seq (RE.lit "1") (RE.cls "123456789"),
         RE.seq (RE.cls "23456789") (RE.cls "0123456789")]

/-- The plain number alternatives 3|4|...|10|1[1-9]|[2-9]\d. -/
def numPlain : RE :=
  rAlts [RE.lit "3", RE.lit "4", RE.lit "5", RE.lit "6", RE.lit "7",
         RE.lit "8", RE.lit "9", RE.lit "10",
         RE.seq (RE.lit "1") (RE.cls "123456789"),
         RE.seq (RE.cls "23456789") (RE.cls "0123456789")]

/-- The upper-bound alternatives 5|6|7|8|9|10|1[1-9]|[2-9]\d. -/
def numHi : RE :=
  rAlts [RE.lit "5", RE.lit "6", RE.lit "7", RE.lit "8", RE.lit "9",
         RE.lit "10",
         RE.seq (RE.lit "1") (RE.cls "123456789"),
         RE.seq (RE.cls "23456789") (RE.cls "0123456789")]

/-- The fragment years?|yrs?|y. -/
def yearsY : RE :=
  rAlts [RE.seq (RE.lit "year") (RE.opt (RE.lit "s")),
         RE.seq (RE.lit "yr") (RE.opt (RE.lit "s")),
         RE.lit "y"]

/-- The fragment years?|yrs?. -/
def yearsN : RE :=
  rAlts [RE.seq (RE.lit "year") (RE.opt (RE.lit "s")),
         RE.seq (RE.lit "yr") (RE.opt (RE.lit "s"))]

/-- The fragment (?:\+|plus)?. -/
def plusOpt : RE := RE.opt (rAlts [RE.lit "+", RE.lit "plus"])

/-- The fragment (?:of\s+)?. -/
def ofOpt : RE := RE.opt (rSeqs [RE.lit "of", wsP])

/-- The qualifier alternation of EXPERIENCE_REJECT line 111:
minimum|min|at\s+least|requires?|must\s+have|need|needs?|looking\s+for|
seeking|should\s+have|candidate\s+should|we\s+require|requires|prefer|
preferably. -/
def expQualifier : RE :=
  rAlts [RE.lit "minimum", RE.lit "min",
         rSeqs [RE.lit "at", wsP, RE.lit "least"],
         RE.seq (RE.lit "require") (RE.opt (RE.lit "s")),
         rSeqs [RE.lit "must", wsP, RE.lit "have"],
         RE.lit "need",
         RE.seq (RE.lit "need") (RE.opt (RE.lit "s")),
         rSeqs [RE.lit "looking", wsP, RE.lit "for"],
         RE.lit "seeking",
         rSeqs [RE.lit "should", wsP, RE.lit "have"],
         rSeqs [RE.lit "candidate", wsP, RE.lit "should"],
         rSeqs [RE.lit "we", wsP, RE.lit "require"],
         RE.lit "requires", RE.lit "prefer", RE.lit "preferably"]

/-- Line 114: number with optional plus, then years. -/
def expDirectA : RE := rSeqs [numPlus, wsS, plusOpt, wsS, yearsY]

/-- Line 116: a numeric range like 4 to 12 years. -/
def expDirectB : RE :=
  rSeqs [numPlain, wsS,
         rAlts [RE.lit "-", RE.lit "to",
                rSeqs [RE.lit "or", wsP, RE.lit "more"],
                rSeqs [wsP, RE.lit "to", wsP]],
         wsS, rAlts [numHi, RE.lit "more"], wsS, yearsY]

/-- Line 118: spelled-out number words followed by years. -/
def expDirectC : RE :=
  rSeqs [rAlts [RE.lit "three", RE.lit "four", RE.lit "five", RE.lit "six",
                RE.lit "seven", RE.lit "eight", RE.lit "nine", RE.lit "ten",
                RE.lit "eleven", RE.lit "twelve", RE.lit "thirteen",
                RE.lit "fourteen", RE.lit "fifteen"],
         wsP, yearsN]

/-- Line 120: number, years, then of experience/exp/background/work. -/
def expDirectD : RE :=
  rSeqs [numPlain, wsS, plusOpt, wsS, yearsY, wsP, ofOpt,
         rAlts [RE.lit "experience", RE.lit "exp", RE.lit "background",
                RE.lit "work"]]

/-- Lines 111-121: qualifier word then one of the direct patterns. -/
def expBranchDirect : RE :=
  rSeqs [expQualifier, wsP,
         rAlts [expDirectA, expDirectB, expDirectC, expDirectD]]

/-- Lines 125-126: years of experience in/with/of/working. -/
def expFirstA : RE :=
  rSeqs [numPlus, wsS, plusOpt, wsS, yearsY, wsP, ofOpt,
         rAlts [RE.lit "experience", RE.lit "exp", RE.lit "background"],
         wsP, rAlts [RE.lit "in", RE.lit "with", RE.lit "of", RE.lit "working"]]

/-- Lines 128-129: numeric range, years, of experience in/with/of/working. -/
def expFirstB : RE :=
  rSeqs [numPlain, wsS, rAlts [RE.lit "-", RE.lit "to"], wsS, numHi, wsS,
         yearsY, wsP, ofOpt,
         rAlts [RE.lit "experience", RE.lit "exp", RE.lit "background"],
         wsP, rAlts [RE.lit "in", RE.lit "with", RE.lit "of", RE.lit "working"]]

/-- Lines 124-130: the experience-first branch. -/
def expBranchFirst : RE := RE.alt expFirstA expFirstB

/-- Line 134: experience/background/expertise of at least N years. -/
def expAltA : RE :=
  rSeqs [rAlts [RE.lit "experience", RE.lit "background", RE.lit "expertise"],
         wsP, ofOpt, RE.opt (rSeqs [RE.lit "at", wsP, RE.lit "least", wsP]),
         numPlus, wsS, plusOpt, wsS, yearsN]

/-- Line 136: N years minimum/min/or more. -/
def expAltB : RE :=
  rSeqs [numPlus, wsS, plusOpt, wsS, yearsN, wsP,
         rAlts [RE.lit "minimum", RE.lit "min",
                rSeqs [RE.lit "or", wsP, RE.lit "more"]]]

/-- Line 138: minimum/min of N years. -/
def expAltC : RE :=
  rSeqs [rAlts [RE.lit "minimum", RE.lit "min"], wsP, RE.lit "of", wsP,
         numPlain, wsS, RE.opt (RE.lit "+"), wsS, yearsN]

/-- Lines 132-139: the alternative-patterns branch. -/
def expBranchAlt : RE := rAlts [expAltA, expAltB, expAltC]

/-- Line 141: the negative lookahead
(?!\s*(?:preferred|desired|plus|a\s+plus|helpful|nice\s+to\s+have|
would\s+be\s+nice|would\s+be\s+great|bonus|advantageous|ideal|
good\s+to\s+have)). -/
def expNegLookahead : RE :=
  RE.nla (rSeqs [wsS,
    rAlts [RE.lit "preferred", RE.lit "desired", RE.lit "plus",
           rSeqs [RE.lit "a", wsP, RE.lit "plus"],
           RE.lit "helpful",
           rSeqs [RE.lit "nice", wsP, RE.lit "to", wsP, RE.lit "have"],
           rSeqs [RE.lit "would", wsP, RE.lit "be", wsP, RE.lit "nice"],
           rSeqs [RE.lit "would", wsP, RE.lit "be", wsP, RE.lit "great"],
           RE.lit "bonus", RE.lit "advantageous", RE.lit "ideal",
           rSeqs [RE.lit "good", wsP, RE.lit "to", wsP, RE.lit "have"]]])

/-- EXPERIENCE_REJECT of src/test_job_alert.py lines 108-142: one of
the three branches, followed by the negative lookahead. -/
def EXPERIENCE_REJECT : RE :=
  RE.seq (rAlts [expBranchDirect, expBranchFirst, expBranchAlt])
    expNegLookahead

/-- SPONSORSHIP_REJECT of src/test_job_alert.py line 144. -/
def SPONSORSHIP_REJECT : RE :=
  rAlts [rSeqs [rAlts [RE.lit "no", RE.lit "not", RE.lit "does not",
                       RE.lit "will not", RE.lit "cannot", RE.lit "unable to"],
                wsP,
                rAlts [RE.lit "provide", RE.lit "offer", RE.lit "sponsor"],
                wsP,
                rAlts [RE.lit "visa", RE.lit "sponsorship",
                       RE.lit "work authorization"]],
         RE.lit "us citizens only",
         rSeqs [RE.lit "must be ",
                rAlts [RE.lit "us citizen", RE.lit "authorized to work"]],
         rSeqs [RE.lit "citizen", RE.starNot "\n", RE.lit "required"],
         RE.lit "no sponsorship",
         RE.lit "visa sponsorship not available",
         rSeqs [RE.lit "eligible to work ", rAlts [RE.lit "in", RE.lit "for"],
                RE.lit " ", rAlts [RE.lit "us", RE.lit "usa"]],
         RE.lit "must be legally authorized"]

/-- The stage-2 classification of a fetched description, lines 317-331
of src/test_job_alert.py: clearance check, then experience check, then
sponsorship check, first match wins. -/
def stage2_classify (description : String) : String :=
  if patSearch CLEARANCE_KEYWORDS (lowerStr description) then "clearance_required"
  else if reSearch EXPERIENCE_REJECT description then "experience_required"
  else if reSearch SPONSORSHIP_REJECT description then "sponsorship_required"
  else "stage2_passed"

/-- stage2_filter_single of src/test_job_alert.py lines 301-335, with
the description fetch (an external HTTP call) abstracted as an input:
non-LinkedIn urls and unfetchable descriptions pass, a fetched
description is classified by the three deep filters. -/
def stage2_filter_single (url : String) (fetched : Option String) : Bool × String :=
  if !(strContainsSub url "linkedin.com") then (true, "stage2_passed")
  else
    match fetched with
    | none => (true, "stage2_passed")
    | some description =>
      let r := stage2_classify description
      if r == "stage2_passed" then (true, r) else (false, r)

end Stage2


/-! ## Bridging lemmas -/

/-- Python membership u in SEEN_JOBS as propositional membership. -/
theorem seenHit_iff (seen : List String) (j : JobAlert.Job) :
    JobAlert.seenHit seen j = true ↔ j.job_url ∈ seen :=
  List.elem_iff

/-- Acceptance by job_alert.filter_job is exactly: not in the seen set
and all four pure stages pass. -/
theorem ja_filter_pass_iff (j : JobAlert.Job) (seen : List String) :
    (JobAlert.filter_job j seen).1 = true ↔
      (JobAlert.seenHit seen j = false ∧ JobAlert.stage_pure j = true) := by
  cases h1 : JobAlert.seenHit seen j <;>
  cases h2 : JobAlert.sourceHit j <;>
  cases h3 : JobAlert.titleKeywordMiss j <;>
  cases h4 : JobAlert.titleRejectHit j <;>
  cases h5 : JobAlert.easyApplyHit j <;>
  simp [JobAlert.filter_job, JobAlert.stage_pure, h1, h2, h3, h4, h5]

/-! ## C2: the filter chain is a fixed-order, short-circuiting
predicate list -/

/-- C2.  For every posting, the classification reason is that of the
first matching stage of the ordered stage list, for both the job_alert
chain and the elite_companies chain (on inputs where the latter does
not raise, see C4); in particular a posting whose id is in the dedup
store is classified seen/cached no matter what its title contains. -/
theorem c2_filter_chain_first_match :
    (∀ (seen : List String) (j : JobAlert.Job),
      (JobAlert.filter_job j seen).2 = firstMatching (JobAlert.stages seen) j)
    ∧ (∀ (company : String) (cacheUrls : List String) (j : Elite.EJob),
      j.description ≠ PyField.null →
      (Elite.filter_job j company cacheUrls).map Prod.snd =
        some (firstMatching (Elite.stagesE company cacheUrls) j))
    ∧ (∀ (seen : List String) (j : JobAlert.Job),
      JobAlert.seenHit seen j = true → (JobAlert.filter_job j seen).2 = "seen")
    ∧ (∀ (company : String) (cacheUrls : List String) (j : Elite.EJob),
      j.description ≠ PyField.null → Elite.cachedHit cacheUrls j = true →
      Elite.filter_job j company cacheUrls = some (false, "cached")) := by
  refine ⟨?_, ?_, ?_, ?_⟩
  · intro seen j
    cases h1 : JobAlert.seenHit seen j <;>
    cases h2 : JobAlert.sourceHit j <;>
    cases h3 : JobAlert.titleKeywordMiss j <;>
    cases h4 : JobAlert.titleRejectHit j <;>
    cases h5 : JobAlert.easyApplyHit j <;>
    simp [JobAlert.filter_job, firstMatching, JobAlert.stages, List.find?,
      h1, h2, h3, h4, h5]
  · intro comp cache j hd
    obtain ⟨s, hs⟩ : ∃ s, Elite.descLower j.description = some s := by
      cases hdesc : j.description with
      | null => exact absurd hdesc hd
      | missing => exact ⟨"", rfl⟩
      | str s => exact ⟨lowerStr s, rfl⟩
    cases h1 : Elite.cachedHit cache j <;>
    cases h2 : Elite.companyMismatchHit comp j <;>
    cases h3 : Elite.badSourceHit j <;>
    cases h4 : Elite.titleRejectHitE j <;>
    cases h5 : Elite.titleMissingHitE j <;>
    cases h6 : Elite.descriptionRejectHitE j <;>
    simp [Elite.filter_job, hs, firstMatching, Elite.stagesE, List.find?,
      h1, h2, h3, h4, h5, h6]
  · intro seen j h
    simp [JobAlert.filter_job, h]
  · intro comp cache j hd h
    obtain ⟨s, hs⟩ : ∃ s, Elite.descLower j.description = some s := by
      cases hdesc : j.description with
      | null => exact absurd hdesc hd
      | missing => exact ⟨"", rfl⟩
      | str s => exact ⟨lowerStr s, rfl⟩
    simp [Elite.filter_job, hs, h]

/-- Witness for C2: a posting whose url is in the seen set and whose
title matches no required keyword is still classified seen. -/
theorem c2_filter_chain_first_match_witness :
    (JobAlert.filter_job ⟨"u", "Gardener", PyField.missing, "x", "", "acme"⟩
      ["u"]).2 = "seen" :=
  c2_filter_chain_first_match.2.2.1 ["u"]
    ⟨"u", "Gardener", PyField.missing, "x", "", "acme"⟩ (by decide)

/-! ## C3: order of the title allow-list and deny-list stages -/

/-- Counterexample to C3 as stated: in elite_companies.filter_job a
title that matches no required keyword and also matches the seniority
denylist is classified title_reject, not title_missing_keywords — the
deny-list stage (line 91) runs before the allow-list stage (line 94). -/
theorem c3_elite_denylist_precedes_allowlist_cex :
    Elite.filter_job
      ⟨"u9", "senior accountant", "google llc", PyField.str "linkedin",
        PyField.str ""⟩ "Google" [] = some (false, "title_reject")
    ∧ Elite.titleMissingHitE
        ⟨"u9", "senior accountant", "google llc", PyField.str "linkedin",
          PyField.str ""⟩ = true
    ∧ Elite.titleRejectHitE
        ⟨"u9", "senior accountant", "google llc", PyField.str "linkedin",
          PyField.str ""⟩ = true := by
  refine ⟨by decide, by decide, by decide⟩

/-- C3 amended.  In job_alert.filter_job the allow-list stage precedes
the deny-list stage: a title matching no required keyword is classified
title_keywords no matter whether it also matches the denylist.  In
elite_companies.filter_job the order is reversed: a title matching the
denylist is classified title_reject no matter whether it also fails
the allow-list. -/
theorem c3_title_stage_order :
    (∀ (seen : List String) (j : JobAlert.Job),
      JobAlert.seenHit seen j = false → JobAlert.sourceHit j = false →
      JobAlert.titleKeywordMiss j = true →
      JobAlert.filter_job j seen = (false, "title_keywords"))
    ∧ (∀ (company : String) (cacheUrls : List String) (j : Elite.EJob),
      j.description ≠ PyField.null →
      Elite.cachedHit cacheUrls j = false →
      Elite.companyMismatchHit company j = false →
      Elite.badSourceHit j = false →
      Elite.titleRejectHitE j = true →
      Elite.filter_job j company cacheUrls = some (false, "title_reject")) := by
  constructor
  · intro seen j h1 h2 h3
    simp [JobAlert.filter_job, h1, h2, h3]
  · intro comp cache j hd h1 h2 h3 h4
    obtain ⟨s, hs⟩ : ∃ s, Elite.descLower j.description = some s := by
      cases hdesc : j.description with
      | null => exact absurd hdesc hd
      | missing => exact ⟨"", rfl⟩
      | str s => exact ⟨lowerStr s, rfl⟩
    simp [Elite.filter_job, hs, h1, h2, h3, h4]

/-- Witness for C3 amended: a keyword-free senior title gets
title_keywords in job_alert but title_reject in elite_companies. -/
theorem c3_title_stage_order_witness :
    JobAlert.filter_job
      ⟨"u", "Senior Gardener", PyField.missing, "linkedin", "", "acme"⟩ [] =
      (false, "title_keywords")
    ∧ Elite.filter_job
        ⟨"u", "senior gardener", "google llc", PyField.str "linkedin",
          PyField.str ""⟩ "Google" [] = some (false, "title_reject") :=
  ⟨c3_title_stage_order.1 []
      ⟨"u", "Senior Gardener", PyField.missing, "linkedin", "", "acme"⟩
      (by decide) (by decide) (by decide),
   c3_title_stage_order.2 "Google" []
      ⟨"u", "senior gardener", "google llc", PyField.str "linkedin",
        PyField.str ""⟩
      (by decide) (by decide) (by decide) (by decide) (by decide)⟩

/-! ## C4: absent description handling -/

/-- C4 evaluation.  elite_companies.filter_job raises AttributeError
(modelled none) on a posting whose description key is present with
value None, even though its sibling pipelines and its own via-field
guard handle the same situation; a missing description key and both
description shapes in job_alert.filter_job degrade to the empty,
never-matching string. -/
theorem c4_elite_null_description_crash :
    Elite.filter_job
      ⟨"u", "security analyst", "google llc", PyField.str "linkedin",
        PyField.null⟩ "Google" [] = none
    ∧ Elite.filter_job
        ⟨"u", "security analyst", "google llc", PyField.str "linkedin",
          PyField.missing⟩ "Google" [] = some (true, "passed")
    ∧ JobAlert.filter_job
        ⟨"u", "Security Analyst", PyField.null, "linkedin", "", "acme"⟩ [] =
        (true, "passed")
    ∧ JobAlert.filter_job
        ⟨"u", "Security Analyst", PyField.missing, "linkedin", "", "acme"⟩ [] =
        (true, "passed") := by
  refine ⟨by decide, by decide, by decide, by decide⟩

/-! ## C5: TTL expiry at load -/

/-- C5.  After the cache-expiry sweep that follows load_cache, an entry
whose first_seen timestamp is strictly older than now - ttl (for
example now - ttl - 1) is absent, and an entry strictly newer than
now - ttl (for example now - ttl + 1) that was present before the sweep
is still present. -/
theorem c5_ttl_expiry_at_load (jobs : List (String × Int)) (now ttl : Int)
    (url : String) (t : Int) :
    (t = now - ttl - 1 → (url, t) ∉ Elite.cache_expire jobs now ttl)
    ∧ (t = now - ttl + 1 → (url, t) ∈ jobs →
        (url, t) ∈ Elite.cache_expire jobs now ttl) := by
  constructor
  · intro ht hmem
    have h := (List.mem_filter.mp hmem).2
    simp only [decide_eq_true_eq] at h
    omega
  · intro ht hmem
    refine List.mem_filter.mpr ⟨hmem, ?_⟩
    simp only [decide_eq_true_eq]
    omega

/-- Witness for C5 at a concrete cache: ttl 4, now 10, an entry stamped
5 = now - ttl - 1 is dropped, one stamped 7 = now - ttl + 1 is kept. -/
theorem c5_ttl_expiry_at_load_witness :
    ("old", (5 : Int)) ∉ Elite.cache_expire [("old", 5), ("new", 7)] 10 4
    ∧ ("new", (7 : Int)) ∈ Elite.cache_expire [("old", 5), ("new", 7)] 10 4 :=
  ⟨(c5_ttl_expiry_at_load [("old", 5), ("new", 7)] 10 4 "old" 5).1 (by decide),
   (c5_ttl_expiry_at_load [("old", 5), ("new", 7)] 10 4 "new" 7).2 (by decide)
     (by decide)⟩

/-! ## C6: save idempotence and size cap -/

/-- Counterexample to C6 as stated: elite_companies.save_cache persists
the whole cache unchanged, so a cache of 1001 entries is persisted in
full — more than the only configured capacity in the repository
(MAX_JOBS_TO_KEEP = 1000 of job_alert.py); no capacity cap exists in
the elite save path at all. -/
theorem c6_elite_save_no_capacity_cap_cex :
    Elite.save_cache_persisted
        ((List.range 1001).map (fun n => (toString n, (0 : Int)))) =
      (List.range 1001).map (fun n => (toString n, (0 : Int)))
    ∧ ((List.range 1001).map (fun n => (toString n, (0 : Int)))).length = 1001
    ∧ JobAlert.MAX_JOBS_TO_KEEP < 1001 := by
  refine ⟨rfl, ?_, by decide⟩
  rw [List.length_map, List.length_range]

/-- C6 amended.  Saving overwrites the persisted file, so repeated
saves of the same store state give the same final persisted state;
job_alert.save_seen_jobs caps the persisted list at MAX_JOBS_TO_KEEP
entries (which entries survive follows Python set iteration order, not
age); elite_companies.save_cache applies no size cap — its growth is
bounded only by the TTL sweep at load. -/
theorem c6_save_idempotent_and_capped :
    (∀ (prev : Option (List String)) (seen : List String),
      JobAlert.write_file (JobAlert.write_file prev seen) seen =
        JobAlert.write_file prev seen)
    ∧ (∀ seen : List String,
      (JobAlert.save_seen_jobs_list seen).length =
        min seen.length JobAlert.MAX_JOBS_TO_KEEP)
    ∧ (∀ jobs : List (String × Int), Elite.save_cache_persisted jobs = jobs) := by
  refine ⟨fun _ _ => rfl, fun seen => ?_, fun _ => rfl⟩
  simp [JobAlert.save_seen_jobs_list]
  omega

/-! ## C10: the elite company_mismatch stage -/

/-- C10.  In elite_companies.filter_job, once the cached stage has not
fired (and the description access did not raise), the posting is
rejected with reason company_mismatch exactly when the lower-cased
searched company name is not a substring of the lower-cased posting
company field — in particular before and regardless of the source
denylist and every later stage. -/
theorem c10_company_mismatch_stage (j : Elite.EJob) (company : String)
    (cacheUrls : List String)
    (hdesc : j.description ≠ PyField.null)
    (hseen : Elite.cachedHit cacheUrls j = false) :
    Elite.filter_job j company cacheUrls = some (false, "company_mismatch") ↔
      strContainsSub (lowerStr j.company) (lowerStr company) = false := by
  obtain ⟨s, hs⟩ : ∃ s, Elite.descLower j.description = some s := by
    cases hd : j.description with
    | null => exact absurd hd hdesc
    | missing => exact ⟨"", rfl⟩
    | str s => exact ⟨lowerStr s, rfl⟩
  cases h2 : Elite.companyMismatchHit company j <;>
  cases h3 : Elite.badSourceHit j <;>
  cases h4 : Elite.titleRejectHitE j <;>
  cases h5 : Elite.titleMissingHitE j <;>
  cases h6 : Elite.descriptionRejectHitE j <;>
  simp_all [Elite.filter_job, Elite.companyMismatchHit, hs, hseen]

/-- Witness for C10: the searched name Google is not inside the posting
company microsoft corporation, so the posting is rejected with
company_mismatch even though its via field also matches the source
denylist (dice). -/
theorem c10_company_mismatch_stage_witness :
    Elite.filter_job
      ⟨"u", "security analyst", "microsoft corporation",
        PyField.str "jobs via dice", PyField.str ""⟩ "Google" [] =
      some (false, "company_mismatch") :=
  (c10_company_mismatch_stage
      ⟨"u", "security analyst", "microsoft corporation",
        PyField.str "jobs via dice", PyField.str ""⟩ "Google" []
      (by decide) (by decide)).mpr (by decide)

/-! ## C7: experience-requirement matching -/

/-- Counterexample to C7 as stated: the description "5+ years required"
does NOT match EXPERIENCE_REJECT and does not trigger the experience
rejection — every branch of the pattern demands either a leading
qualifier word (requires, minimum, ...) or a trailing experience
context, and the bare phrase has neither. -/
theorem c7_five_plus_years_required_not_rejected_cex :
    reSearch Stage2.EXPERIENCE_REJECT "5+ years required" = false
    ∧ Stage2.stage2_classify "5+ years required" = "stage2_passed" := by
  refine ⟨by decide, by decide⟩

/-- C7 amended.  A description containing "5+ years preferred" does not
trigger the experience rejection, but neither does "5+ years required";
what does trigger it is a requirement phrase with a leading qualifier,
such as "requires 5+ years". -/
theorem c7_experience_negation_behavior :
    reSearch Stage2.EXPERIENCE_REJECT "5+ years preferred" = false
    ∧ reSearch Stage2.EXPERIENCE_REJECT "5+ years required" = false
    ∧ reSearch Stage2.EXPERIENCE_REJECT "requires 5+ years" = true
    ∧ Stage2.stage2_classify "requires 5+ years" = "experience_required"
    ∧ Stage2.stage2_classify "5+ years preferred" = "stage2_passed"
    ∧ Stage2.stage2_filter_single "https://linkedin.com/jobs/1"
        (some "requires 5+ years") = (false, "experience_required") := by
  refine ⟨by decide, by decide, by decide, by decide, by decide, by decide⟩

/-! ## C9: send retry with backoff, failure is not fatal -/

/-- Number of sink calls in a trace. -/
def countPosts (evs : List Ev) : Nat := evs.countP Ev.isPost

/-- The retry loop makes at most remaining further attempts. -/
theorem ja_post_attempts_le (oracle : Nat → Bool) (msg : String) :
    ∀ (remaining attempt : Nat),
      countPosts (JobAlert.post_attempts oracle msg attempt remaining).2 ≤
        remaining := by
  intro remaining
  induction remaining with
  | zero => intro attempt; simp [JobAlert.post_attempts, countPosts]
  | succ k ih =>
    intro attempt
    by_cases h : oracle attempt = true
    · simp [JobAlert.post_attempts, h, countPosts, Ev.isPost]
    · by_cases hk : k = 0
      · simp [JobAlert.post_attempts, h, hk, countPosts, Ev.isPost]
      · have hne : (k == 0) = false := by simp [hk]
        simp only [JobAlert.post_attempts, h, hne, Bool.false_eq_true,
          if_false, countPosts, List.countP_cons]
        have := ih (attempt + 1)
        simp [countPosts] at this
        simp [Ev.isPost]
        omega

/-- C9.  job_alert.post_to_slack with the configured maximum of 3
attempts: when every attempt fails, it makes exactly 3 sink calls with
sleeps of 1 and 2 seconds between them (the delays 1 * (attempt + 1),
which at this configuration are the exponential sequence 2^0, 2^1) and
then returns False — a value, not an exception, so the caller keeps
running; in general the loop never makes more sink calls than the
configured maximum. -/
theorem c9_retry_backoff_and_continue :
    (∀ (oracle : Nat → Bool) (msg : String),
      (∀ i, i < 3 → oracle i = false) →
      JobAlert.post_to_slack oracle msg 3 =
        (false, [Ev.post msg, Ev.sleep 1, Ev.post msg, Ev.sleep 2,
                 Ev.post msg])
      ∧ [Ev.sleep 1, Ev.sleep 2] = [Ev.sleep (2 ^ 0), Ev.sleep (2 ^ 1)])
    ∧ (∀ (oracle : Nat → Bool) (msg : String) (maxRetries : Nat),
      countPosts (JobAlert.post_to_slack oracle msg maxRetries).2 ≤
        maxRetries) := by
  constructor
  · intro oracle msg h
    have h0 := h 0 (by omega)
    have h1 := h 1 (by omega)
    have h2 := h 2 (by omega)
    refine ⟨?_, by decide⟩
    simp [JobAlert.post_to_slack, JobAlert.post_attempts, h0, h1, h2]
  · intro oracle msg maxRetries
    exact ja_post_attempts_le oracle msg maxRetries 0

/-- Witness for C9: all three attempts fail, the result is False with
trace post, sleep 1, post, sleep 2, post. -/
theorem c9_retry_backoff_and_continue_witness :
    JobAlert.post_to_slack (fun _ => false) "msg" 3 =
      (false, [Ev.post "msg", Ev.sleep 1, Ev.post "msg", Ev.sleep 2,
               Ev.post "msg"]) :=
  (c9_retry_backoff_and_continue.1 (fun _ => false) "msg" (fun _ _ => rfl)).1

/-! ## C8: dispatcher batching -/

/-- With an always-succeeding sink, one batch send is a single sink
call. -/
theorem elite_send_ok (oracle : Nat → Bool) (h : ∀ n, oracle n = true)
    (text : String) (a c r : Nat) (hr : 0 < r) :
    Elite.send_with_retries oracle text a r c = ([Ev.post text], c + 1) := by
  cases r with
  | zero => omega
  | succ k => simp [Elite.send_with_retries, h c]

/-- With an always-succeeding sink, the dispatch trace is the batch
list, each batch contributing its sink call followed by the pacing
sleep. -/
theorem elite_dispatch_trace (oracle : Nat → Bool) (h : ∀ n, oracle n = true) :
    ∀ (fuel : Nat) (msgs : List String) (c : Nat), msgs.length ≤ fuel →
      (Elite.dispatchF oracle fuel msgs c).1 =
        (Elite.chunksF fuel msgs).flatMap
          (fun b => [Ev.post (Elite.joinNL b), Ev.sleep 1]) := by
  intro fuel
  induction fuel with
  | zero =>
    intro msgs c hlen
    have hnil : msgs = [] := List.length_eq_zero.mp (by omega)
    subst hnil
    simp [Elite.dispatchF, Elite.chunksF]
  | succ n ih =>
    intro msgs c hlen
    cases msgs with
    | nil => simp [Elite.dispatchF, Elite.chunksF]
    | cons x xs =>
      have hrest : ((x :: xs).drop 20).length ≤ n := by
        simp only [List.length_drop]
        simp only [List.length_cons] at hlen ⊢
        omega
      simp only [Elite.dispatchF, Elite.chunksF, List.flatMap_cons]
      rw [elite_send_ok oracle h _ 0 c 3 (by omega), ih _ _ hrest]
      simp

/-- The number of batches is the number of messages divided by 20,
rounded up. -/
theorem elite_chunksF_length :
    ∀ (fuel : Nat) (msgs : List String), msgs.length ≤ fuel →
      (Elite.chunksF fuel msgs).length = (msgs.length + 19) / 20 := by
  intro fuel
  induction fuel with
  | zero =>
    intro msgs hlen
    have hnil : msgs = [] := List.length_eq_zero.mp (by omega)
    subst hnil
    simp [Elite.chunksF]
  | succ n ih =>
    intro msgs hlen
    cases msgs with
    | nil => simp [Elite.chunksF]
    | cons x xs =>
      have hrest : ((x :: xs).drop 20).length ≤ n := by
        simp only [List.length_drop]
        simp only [List.length_cons] at hlen ⊢
        omega
      simp only [Elite.chunksF, List.length_cons]
      rw [ih _ hrest]
      simp only [List.length_drop, List.length_cons]
      omega

/-- Every batch is nonempty and holds at most 20 messages. -/
theorem elite_chunksF_sizes :
    ∀ (fuel : Nat) (msgs : List String), msgs.length ≤ fuel →
      ∀ b ∈ Elite.chunksF fuel msgs, 0 < b.length ∧ b.length ≤ 20 := by
  intro fuel
  induction fuel with
  | zero =>
    intro msgs hlen
    have hnil : msgs = [] := List.length_eq_zero.mp (by omega)
    subst hnil
    simp [Elite.chunksF]
  | succ n ih =>
    intro msgs hlen b hb
    cases msgs with
    | nil => simp [Elite.chunksF] at hb
    | cons x xs =>
      have hrest : ((x :: xs).drop 20).length ≤ n := by
        simp only [List.length_drop]
        simp only [List.length_cons] at hlen ⊢
        omega
      simp only [Elite.chunksF, List.mem_cons] at hb
      rcases hb with hb | hb
      · subst hb
        simp only [List.length_take, List.length_cons]
        omega
      · exact ih _ hrest b hb

/-- Every batch except possibly the last holds exactly 20 messages. -/
theorem elite_chunksF_nonlast :
    ∀ (fuel : Nat) (msgs : List String), msgs.length ≤ fuel →
      ∀ i, i + 1 < (Elite.chunksF fuel msgs).length →
        ((Elite.chunksF fuel msgs).getD i []).length = 20 := by
  intro fuel
  induction fuel with
  | zero =>
    intro msgs hlen
    have hnil : msgs = [] := List.length_eq_zero.mp (by omega)
    subst hnil
    simp [Elite.chunksF]
  | succ n ih =>
    intro msgs hlen i hi
    cases msgs with
    | nil => simp [Elite.chunksF] at hi
    | cons x xs =>
      have hrest : ((x :: xs).drop 20).length ≤ n := by
        simp only [List.length_drop]
        simp only [List.length_cons] at hlen ⊢
        omega
      cases i with
      | zero =>
        simp only [Elite.chunksF, List.length_cons] at hi
        have hlen2 := elite_chunksF_length n ((x :: xs).drop 20) hrest
        simp only [Elite.chunksF, List.getD_cons_zero]
        simp only [List.length_drop, List.length_cons] at hlen2
        simp only [List.length_take, List.length_cons]
        omega
      | succ k =>
        simp only [Elite.chunksF, List.length_cons] at hi
        simp only [Elite.chunksF, List.getD_cons_succ]
        exact ih _ hrest k (by omega)

/-- Counterexample to C8 as stated: dispatching 45 messages through an
always-succeeding sink, the very first trace event is already a sink
call — the pacing sleep of line 174 follows each batch, it does not
precede it, so the first call is preceded by no delay. -/
theorem c8_first_batch_not_preceded_by_delay_cex :
    ((Elite.post_to_slack (fun _ => true) (List.replicate 45 "m")).headD
        (Ev.sleep 0)).isPost = true
    ∧ (Elite.post_to_slack (fun _ => true)
        (List.replicate 45 "m")).countP Ev.isPost = 3 := by
  refine ⟨by decide, by decide⟩

/-- C8 amended.  With a sink that accepts every call, dispatching
messages produces the batch list in submission order, each batch sent
as one sink call followed (not preceded) by the 1-second pacing sleep;
there are ceil(n / 20) batches, every batch holds between 1 and 20
messages, and every batch except possibly the last holds exactly 20. -/
theorem c8_dispatch_batching (messages : List String) (oracle : Nat → Bool)
    (hok : ∀ n, oracle n = true) :
    Elite.post_to_slack oracle messages =
      (Elite.chunks20 messages).flatMap
        (fun b => [Ev.post (Elite.joinNL b), Ev.sleep 1])
    ∧ (Elite.chunks20 messages).length = (messages.length + 19) / 20
    ∧ (∀ b ∈ Elite.chunks20 messages, 0 < b.length ∧ b.length ≤ 20)
    ∧ (∀ i, i + 1 < (Elite.chunks20 messages).length →
        ((Elite.chunks20 messages).getD i []).length = 20) :=
  ⟨elite_dispatch_trace oracle hok messages.length messages 0 le_rfl,
   elite_chunksF_length messages.length messages le_rfl,
   elite_chunksF_sizes messages.length messages le_rfl,
   elite_chunksF_nonlast messages.length messages le_rfl⟩

/-- Witness for C8 amended at the 45-message scenario of the spec. -/
theorem c8_dispatch_batching_witness :
    Elite.post_to_slack (fun _ => true) (List.replicate 45 "m") =
      (Elite.chunks20 (List.replicate 45 "m")).flatMap
        (fun b => [Ev.post (Elite.joinNL b), Ev.sleep 1])
    ∧ (Elite.chunks20 (List.replicate 45 "m")).map List.length = [20, 20, 5] :=
  ⟨(c8_dispatch_batching (List.replicate 45 "m") (fun _ => true)
      (fun _ => rfl)).1, by decide⟩

/-! ## C1: second-run behaviour of the pipeline -/

/-- The seen set only grows across a batch. -/
theorem ja_seen_mono :
    ∀ (jobs : List JobAlert.Job) (seen : List String) (u : String),
      u ∈ seen → u ∈ (JobAlert.processJobsBatch jobs seen).2 := by
  intro jobs
  induction jobs with
  | nil => intro seen u h; simpa [JobAlert.processJobsBatch] using h
  | cons j rest ih =>
    intro seen u h
    by_cases hf : (JobAlert.filter_job j seen).1 = true
    · simp only [JobAlert.processJobsBatch, hf, if_true]
      exact ih _ _ (List.mem_cons_of_mem _ h)
    · simp only [JobAlert.processJobsBatch, hf, Bool.false_eq_true, if_false]
      exact ih _ _ h

/-- After a batch, the url of every listed posting that passes the pure
stages is in the final seen set (it was either already seen or got
recorded on acceptance). -/
theorem ja_pass_url_mem :
    ∀ (jobs : List JobAlert.Job) (seen : List String) (j : JobAlert.Job),
      j ∈ jobs → JobAlert.stage_pure j = true →
      j.job_url ∈ (JobAlert.processJobsBatch jobs seen).2 := by
  intro jobs
  induction jobs with
  | nil => intro seen j h; simp at h
  | cons a rest ih =>
    intro seen j hmem hpure
    rcases List.mem_cons.mp hmem with heq | hmem2
    · subst heq
      by_cases hf : (JobAlert.filter_job j seen).1 = true
      · simp only [JobAlert.processJobsBatch, hf, if_true]
        exact ja_seen_mono rest _ _ (List.mem_cons_self _ _)
      · have hseen : JobAlert.seenHit seen j = true := by
          rcases Bool.eq_false_or_eq_true (JobAlert.seenHit seen j) with h | h
          · exact h
          · exact absurd ((ja_filter_pass_iff j seen).mpr ⟨h, hpure⟩) hf
        simp only [JobAlert.processJobsBatch, hf, Bool.false_eq_true, if_false]
        exact ja_seen_mono rest _ _ ((seenHit_iff seen j).mp hseen)
    · by_cases hf : (JobAlert.filter_job a seen).1 = true
      · simp only [JobAlert.processJobsBatch, hf, if_true]
        exact ih _ _ hmem2 hpure
      · simp only [JobAlert.processJobsBatch, hf, Bool.false_eq_true, if_false]
        exact ih _ _ hmem2 hpure

/-- Every accepted posting comes from the input list and passes the
pure stages. -/
theorem ja_accepted_sub_pure :
    ∀ (jobs : List JobAlert.Job) (seen : List String) (j : JobAlert.Job),
      j ∈ (JobAlert.processJobsBatch jobs seen).1 →
      j ∈ jobs ∧ JobAlert.stage_pure j = true := by
  intro jobs
  induction jobs with
  | nil => intro seen j h; simp [JobAlert.processJobsBatch] at h
  | cons a rest ih =>
    intro seen j hmem
    by_cases hf : (JobAlert.filter_job a seen).1 = true
    · simp only [JobAlert.processJobsBatch, hf, if_true] at hmem
      rcases List.mem_cons.mp hmem with heq | hmem2
      · subst heq
        exact ⟨List.mem_cons_self _ _,
          ((ja_filter_pass_iff j seen).mp hf).2⟩
      · obtain ⟨h1, h2⟩ := ih _ _ hmem2
        exact ⟨List.mem_cons_of_mem _ h1, h2⟩
    · simp only [JobAlert.processJobsBatch, hf, Bool.false_eq_true,
        if_false] at hmem
      obtain ⟨h1, h2⟩ := ih _ _ hmem
      exact ⟨List.mem_cons_of_mem _ h1, h2⟩

/-- A batch over a seen set that already covers the url of every
pure-passing listed posting accepts nothing. -/
theorem ja_second_empty :
    ∀ (jobs : List JobAlert.Job) (s : List String),
      (∀ j ∈ jobs, JobAlert.stage_pure j = true → j.job_url ∈ s) →
      (JobAlert.processJobsBatch jobs s).1 = [] := by
  intro jobs
  induction jobs with
  | nil => intro s _; simp [JobAlert.processJobsBatch]
  | cons a rest ih =>
    intro s hcov
    have hf : (JobAlert.filter_job a s).1 ≠ true := by
      intro hf
      obtain ⟨hns, hpure⟩ := (ja_filter_pass_iff a s).mp hf
      have := hcov a (List.mem_cons_self _ _) hpure
      rw [(seenHit_iff s a).mpr this] at hns
      exact Bool.true_eq_false.mp hns
    simp only [JobAlert.processJobsBatch, hf, Bool.false_eq_true, if_false]
    exact ih s (fun j hj => hcov j (List.mem_cons_of_mem _ hj))

/-- When the seen set fits in the capacity, the persisted list is the
set itself. -/
theorem ja_save_id_of_le (l : List String)
    (h : l.length ≤ JobAlert.MAX_JOBS_TO_KEEP) :
    JobAlert.save_seen_jobs_list l = l := by
  unfold JobAlert.save_seen_jobs_list
  rw [Nat.sub_eq_zero_of_le h, List.drop_zero]

/-- C1 amended.  Run the batch once from any starting seen set, persist
the resulting seen set (in any iteration order, provided it fits the
MAX_JOBS_TO_KEEP capacity so that the save truncation is the identity),
and run the same batch again from the persisted set: the second run
accepts nothing — so zero new notifications — and every posting
ACCEPTED by the first run is classified seen; a posting rejected by
the first run is rejected again, but by its original reason, not as
seen (see the counterexample). -/
theorem c1_second_run_yields_no_notifications
    (jobs : List JobAlert.Job) (seen0 iter : List String)
    (hmem : ∀ u, u ∈ iter ↔ u ∈ (JobAlert.processJobsBatch jobs seen0).2)
    (hcap : iter.length ≤ JobAlert.MAX_JOBS_TO_KEEP) :
    (JobAlert.processJobsBatch jobs (JobAlert.save_seen_jobs_list iter)).1 = []
    ∧ ∀ j ∈ (JobAlert.processJobsBatch jobs seen0).1,
        (JobAlert.filter_job j (JobAlert.save_seen_jobs_list iter)).2 =
          "seen" := by
  rw [ja_save_id_of_le iter hcap]
  constructor
  · exact ja_second_empty jobs iter
      (fun j hj hpure => (hmem _).mpr (ja_pass_url_mem jobs seen0 j hj hpure))
  · intro j hj
    obtain ⟨hjj, hpure⟩ := ja_accepted_sub_pure jobs seen0 j hj
    have hurl : j.job_url ∈ iter :=
      (hmem _).mpr (ja_pass_url_mem jobs seen0 j hjj hpure)
    have hseen : JobAlert.seenHit iter j = true := (seenHit_iff iter j).mpr hurl
    simp [JobAlert.filter_job, hseen]

/-- Witness for C1 amended: one accepted posting, persisted seen set
of one url; the second run accepts nothing and classifies it seen. -/
theorem c1_second_run_yields_no_notifications_witness :
    (JobAlert.processJobsBatch
        [⟨"u1", "Security Analyst", PyField.missing, "linkedin", "", "acme"⟩]
        (JobAlert.save_seen_jobs_list ["u1"])).1 = []
    ∧ ∀ j ∈ (JobAlert.processJobsBatch
        [⟨"u1", "Security Analyst", PyField.missing, "linkedin", "", "acme"⟩]
        []).1,
        (JobAlert.filter_job j (JobAlert.save_seen_jobs_list ["u1"])).2 =
          "seen" :=
  c1_second_run_yields_no_notifications
    [⟨"u1", "Security Analyst", PyField.missing, "linkedin", "", "acme"⟩]
    [] ["u1"] (fun _ => Iff.rfl) (by decide)

/-- Counterexample to C1 as stated: a posting rejected by the first run
(here for its dice source) is NOT in the dedup store after the first
run — the store records only accepted postings — and on the second run
it is classified source again, not seen. -/
theorem c1_first_run_posting_not_in_store_cex :
    (JobAlert.processJobsBatch
        [⟨"u1", "Security Analyst", PyField.str "", "jobs via dice", "",
          "acme"⟩] []).2 = []
    ∧ (JobAlert.filter_job
        ⟨"u1", "Security Analyst", PyField.str "", "jobs via dice", "", "acme"⟩
        (JobAlert.processJobsBatch
          [⟨"u1", "Security Analyst", PyField.str "", "jobs via dice", "",
            "acme"⟩] []).2).2 = "source" := by
  refine ⟨by decide, by decide⟩
